import Mathlib

/-!
Shallow embedding of the tu-vm universal MinIO extraction pipeline
(src/tika-minio-processor/universal_processor.py and
src/tika-minio-processor/universal_auto_processor.py), together with
theorems settling the behavioural claims about it.

Python `pathlib.Path` operations, the `mimetypes` table, and network /
filesystem effects are embedded explicitly: pure path arithmetic is
transcribed from CPython's documented semantics, remote services are
oracles supplied through an environment record, and effectful calls are
recorded as an event trace so that theorems can speak about which calls
a run performs.  String primitives are implemented structurally over
`List Char` so that every definition evaluates inside the kernel.
-/

namespace TuVM

/-! ### String primitives (structural re-implementations of the
Python/Lean string operations the source relies on) -/

/-- Split a character list on a separator (Python `str.split(sep)`
semantics: `n` separators produce `n+1` groups, possibly empty). -/
def splitOnChar (sep : Char) : List Char → List (List Char)
  | [] => [[]]
  | c :: rest =>
    if c == sep then [] :: splitOnChar sep rest
    else
      match splitOnChar sep rest with
      | [] => [[c]]
      | g :: gs => (c :: g) :: gs

/-- Python `s.endswith(pat)`. -/
def strEndsWith (s pat : String) : Bool :=
  pat.toList.isSuffixOf s.toList

/-- Python `s.startswith(pat)`. -/
def strStartsWith (s pat : String) : Bool :=
  pat.toList.isPrefixOf s.toList

/-- Python `s.lower()` (ASCII case folding, which is all the pipeline's
extension tables need). -/
def pyLower (s : String) : String :=
  String.mk (s.toList.map Char.toLower)

/-- Python `s.strip()`: remove leading and trailing whitespace. -/
def pyStrip (s : String) : String :=
  String.mk (((s.toList.dropWhile Char.isWhitespace).reverse.dropWhile
    Char.isWhitespace).reverse)

/-- Python `s.strip('.')`: remove leading and trailing `.` characters. -/
def stripDots (s : String) : String :=
  String.mk (((s.toList.dropWhile (fun c => c == '.')).reverse.dropWhile
    (fun c => c == '.')).reverse)

/-- Length of a string in characters (Python `len`). -/
def strLen (s : String) : Nat := s.toList.length

/-- Join a list of strings with a separator (Python `sep.join`). -/
def joinSep (sep : String) : List String → String
  | [] => ""
  | [x] => x
  | x :: xs => x ++ sep ++ joinSep sep xs

/-! ### Python `pathlib` path arithmetic

`pathComponents` mirrors `PurePosixPath` parsing for the relative object
keys used by the pipeline: split on `/`, dropping empty segments and the
no-op `.` segments. -/

def pathComponents (s : String) : List String :=
  ((splitOnChar '/' s.toList).map String.mk).filter
    (fun c => c ≠ "" && c ≠ ".")

/-- `Path(s).name`: the final path component (empty for an empty path). -/
def pyName (s : String) : String :=
  (pathComponents s).getLast?.getD ""

/-- Index of the last `.` in a list of characters, if any. -/
def rfindDotIdx (cs : List Char) : Option Nat :=
  match cs.reverse.findIdx? (fun c => c == '.') with
  | some j => some (cs.length - 1 - j)
  | none => none

/-- `Path(s).suffix`: the last dot-segment of the name, including the dot,
provided the dot is neither leading nor trailing (CPython:
`0 < i < len(name) - 1`). -/
def pathSuffix (s : String) : String :=
  let cs := (pyName s).toList
  match rfindDotIdx cs with
  | some i => if 0 < i && i < cs.length - 1 then String.mk (cs.drop i) else ""
  | none => ""

/-- `Path(s).stem`: the name with its (single, final) suffix removed. -/
def pyStem (s : String) : String :=
  let cs := (pyName s).toList
  String.mk (cs.take (cs.length - strLen (pathSuffix s)))

/-- `str(Path(s).parent)`: all components but the last, `"."` when none. -/
def pyParentStr (s : String) : String :=
  match (pathComponents s).dropLast with
  | [] => "."
  | ps => joinSep "/" ps

/-- Output-key derivation, as duplicated at
`universal_processor.py:549-552` (`store_processed_content`) and
`universal_processor.py:606-608` (`process_file_from_minio`):
`stem = Path(key).stem`, `parent = str(Path(key).parent).strip('.')`,
result `f"{stem}.txt"` when the parent is empty, else
`f"{parent}/{stem}.txt"`. -/
def outputKey (objectKey : String) : String :=
  let stem := pyStem objectKey
  let parent := stripDots (pyParentStr objectKey)
  if parent = "" then stem ++ ".txt" else parent ++ "/" ++ stem ++ ".txt"

/-! ### Extension tables and the classifier (`universal_processor.py:41-94, 228-254`) -/

/-- `SUPPORTED_EXTENSIONS` in source (insertion) order: extension to
processing method. -/
def SUPPORTED_EXTENSIONS : List (String × String) :=
  [ (".pdf", "tika"), (".doc", "tika"), (".docx", "tika"), (".xls", "tika"),
    (".xlsx", "tika"), (".ppt", "tika"), (".pptx", "tika"), (".odt", "tika"),
    (".ods", "tika"), (".odp", "tika"), (".rtf", "tika"), (".epub", "tika"),
    (".mobi", "tika"),
    (".txt", "text"), (".md", "text"), (".csv", "text"), (".json", "text"),
    (".xml", "text"), (".html", "text"), (".htm", "text"), (".log", "text"),
    (".jpg", "tika"), (".jpeg", "tika"), (".png", "tika"), (".gif", "tika"),
    (".bmp", "tika"), (".tiff", "tika"), (".tif", "tika"), (".webp", "tika"),
    (".zip", "archive"), (".tar", "archive"), (".tar.gz", "archive"),
    (".tgz", "archive"), (".gz", "archive"), (".rar", "archive"),
    (".7z", "archive") ]

def SKIP_EXTENSIONS : List String :=
  [".txt", ".processed", ".lock", ".tmp", ".swp"]

/-- Stable insertion of a string into a length-descending sorted list:
longer strings first, ties keep earlier-inserted elements first. -/
def insertByLen (x : String) : List String → List String
  | [] => [x]
  | y :: ys => if strLen y ≤ strLen x then x :: y :: ys else y :: insertByLen x ys

/-- Python `sorted(keys, key=len, reverse=True)`: stable sort by length,
longest first. -/
def sortByLenDesc (l : List String) : List String :=
  l.foldr insertByLen []

def sortedSupportedExts : List String :=
  sortByLenDesc (SUPPORTED_EXTENSIONS.map Prod.fst)

/-- Association-list lookup (the dict accesses of the source). -/
def lookupStr (l : List (String × String)) (k : String) : Option String :=
  match l with
  | [] => none
  | (a, b) :: rest => if a == k then some b else lookupStr rest k

/-- The Python stdlib `mimetypes.guess_type` lookup, restricted to the
extension-to-type entries of CPython's default table that are relevant to
this development (lookup is on the lower-cased final suffix; extensions
absent from CPython's table, such as `.unknownext`, map to `None`). -/
def mimetypesGuessType (filename : String) : Option String :=
  lookupStr
    [ (".pdf", "application/pdf"), (".doc", "application/msword"),
      (".txt", "text/plain"), (".html", "text/html"), (".htm", "text/html"),
      (".csv", "text/csv"), (".xml", "text/xml"),
      (".jpg", "image/jpeg"), (".jpeg", "image/jpeg"), (".png", "image/png"),
      (".gif", "image/gif"), (".bmp", "image/bmp"), (".svg", "image/svg+xml"),
      (".bin", "application/octet-stream"), (".exe", "application/octet-stream"),
      (".mp3", "audio/mpeg"), (".mp4", "video/mp4"), (".wav", "audio/x-wav"),
      (".zip", "application/zip"), (".tar", "application/x-tar"),
      (".gz", "application/gzip") ]
    (pathSuffix (pyLower filename))

/-- `UniversalMinIOProcessor._get_file_type` (`universal_processor.py:228-254`):
skip-extension check on `Path(filename.lower()).suffix` first, then the
supported-extension table matched longest suffix first against
`filename.lower().endswith(ext)`, then a MIME-type guess, then the
`'tika'` fallback.  Returns the processing-method string and the matched
extension (`none` models Python's `None`). -/
def getFileType (filename : String) : String × Option String :=
  let lower := pyLower filename
  let suffix := pathSuffix lower
  if SKIP_EXTENSIONS.contains suffix then ("skip", none)
  else
    match sortedSupportedExts.find? (fun ext => strEndsWith lower ext) with
    | some ext => ((lookupStr SUPPORTED_EXTENSIONS ext).getD "tika", some ext)
    | none =>
      match mimetypesGuessType filename with
      | some mt =>
        if strStartsWith mt "text/" then ("text", some suffix)
        else if strStartsWith mt "image/" then ("tika", some suffix)
        else if mt == "application/pdf" || mt == "application/msword" ||
            mt == "application/vnd.openxmlformats-officedocument" then
          ("tika", some suffix)
        else ("tika", some suffix)
      | none => ("tika", some suffix)

/-! ### StatusReporter (`universal_processor.py:206-226`) -/

/-- The JSON record `_update_status` serializes (`status_data`,
`universal_processor.py:210-217`); `progress` is stored already clamped by
`max(0, min(100, progress))`. -/
structure StatusRecord where
  processing : Bool
  currentFile : Option String
  progress : Int
  status : String
  error : Option String
deriving DecidableEq

/-- The exception kinds the try body of `_update_status` (serialize,
open, write, rename) can actually raise: `IOError`, `OSError`, or any
other `Exception` (e.g. a serialization `TypeError`).  Note that
`json.JSONEncodeError`, named in the except clause at
`universal_processor.py:223`, does not exist in the `json` module and
therefore can never be raised by the body. -/
inductive StatusWriteErr where
  | ioErr
  | osErr
  | otherExn
deriving DecidableEq

/-- The exception `_update_status` itself ends up raising: when the try
body raises, CPython evaluates the first except clause's tuple
`(IOError, OSError, json.JSONEncodeError)`; the attribute lookup
`json.JSONEncodeError` fails with `AttributeError`, which escapes the
whole try statement (the later `except Exception` clause is not
consulted for an exception raised while matching an earlier clause). -/
inductive StatusUpdateExn where
  | attributeError
deriving DecidableEq

/-- The record built by `_update_status` before writing. -/
def statusData (processing : Bool) (currentFile : Option String)
    (progress : Int) (status : String) (error : Option String) : StatusRecord :=
  { processing := processing, currentFile := currentFile,
    progress := max 0 (min 100 progress), status := status, error := error }

/-- `UniversalMinIOProcessor._update_status`: build the record and
attempt the (atomic temp-file-plus-rename) write supplied by the oracle
`writeFile`.  Result `.ok (some rec)` means the record was written and
the call returned normally.  When the write raises, matching the first
except clause `except (IOError, OSError, json.JSONEncodeError)` at
`universal_processor.py:223` evaluates `json.JSONEncodeError`, an
attribute that does not exist in the `json` module; the resulting
`AttributeError` replaces the original exception and propagates out of
`_update_status` — neither handler body runs, so every write failure
escapes to the caller as `.error .attributeError`. -/
def updateStatus (writeFile : StatusRecord → Except StatusWriteErr Unit)
    (processing : Bool) (currentFile : Option String) (progress : Int)
    (status : String) (error : Option String) :
    Except StatusUpdateExn (Option StatusRecord) :=
  let d := statusData processing currentFile progress status error
  match writeFile d with
  | .ok _ => .ok (some d)
  | .error _ => .error .attributeError

/-! ### Event traces and the service environment

Every effectful call the pipeline makes is recorded as an `Event`;
theorems about "no download", "exactly N attempts" etc. are statements
about the trace a run produces. -/

inductive Event where
  /-- `head_object` existence probe. -/
  | headReq (bucket key : String)
  /-- `get_object` download. -/
  | getReq (bucket key : String)
  /-- `PUT {tika_url}/tika` extraction attempt (0-based attempt index). -/
  | tikaPut (attempt : Nat)
  /-- `PUT {tika_url}/meta` metadata fetch. -/
  | tikaMetaReq
  /-- `put_object` upload of the processed text. -/
  | putReq (bucket key : String)
  /-- `time.sleep(retry_delay)`. -/
  | sleep (secs : Nat)
  /-- `_update_status(...)` call with its arguments. -/
  | statusUpd (processing : Bool) (currentFile : Option String)
      (progress : Nat) (phase : String) (error : Option String)
deriving DecidableEq

/-- Outcome of one `requests.put` to the extraction endpoint: an HTTP
response with status code and body, or one of the exception kinds the
source handles (`universal_processor.py:366-406`). -/
inductive TikaResp where
  | httpResp (code : Nat) (body : String)
  | timeout
  | connError (msg : String)
  | otherExn (msg : String)
deriving DecidableEq

/-- Outcome of a `head_object` call (`universal_processor.py:610-619`):
the object exists, a `ClientError` was raised (treated as "not yet
processed"), or some other exception was raised (logged, processing
continues anyway). -/
inductive HeadRes where
  | found
  | clientErr
  | otherErr
deriving DecidableEq

/-- Content of a zip/tar archive entry once read: its byte length and its
UTF-8 decoding when the bytes decode (`none` models a
`UnicodeDecodeError`). -/
structure EntryData where
  size : Nat
  utf8 : Option String
deriving DecidableEq

/-- One `namelist()` member of a zip archive; `read = none` models
`zip_ref.read(member)` raising (the entry is logged and skipped). -/
structure ZipEntry where
  name : String
  read : Option EntryData
deriving DecidableEq

/-- One `getmembers()` member of a tar archive. -/
structure TarEntry where
  name : String
  isFile : Bool
  read : Option EntryData
deriving DecidableEq

/-- Abstraction of a downloaded byte string through the observations the
three extractors make of it: UTF-8 / Latin-1 decodings (Latin-1 decoding
of arbitrary bytes never fails) and the zip / tar parses (`none` models a
corrupt container whose open raises). -/
structure PyBytes where
  utf8 : Option String
  latin1 : String
  zipEntries : Option (List ZipEntry)
  tarEntries : Option (List TarEntry)
deriving DecidableEq

/-- The processor's configuration plus oracles for every external
service, mirroring the `UniversalMinIOProcessor` fields and the behaviour
of MinIO and Tika as seen by one run. -/
structure ProcEnv where
  maxRetries : Nat
  retryDelay : Nat
  uploadsBucket : String
  processedBucket : String
  /-- `head_object(Bucket, Key)` outcome. -/
  head : String → String → HeadRes
  /-- `get_object(Bucket, Key)` outcome: downloaded bytes or the message
  of a raised exception. -/
  get : String → String → Except String PyBytes
  /-- Extraction-endpoint outcome for the n-th attempt. -/
  resp : Nat → TikaResp
  /-- Metadata-endpoint outcome: `some m` for a 200 response with JSON
  `m`, `none` for a non-200 response or a raised exception (degrades to
  `{}`, `universal_processor.py:326-329`). -/
  meta : Option (List (String × String))
  /-- Whether `put_object` in `store_processed_content` succeeds. -/
  putOk : Bool

/-! ### RemoteDocumentExtractor (`_process_with_tika`,
`universal_processor.py:256-415`) -/

/-- OCR is enabled for `application/pdf` and `image/*` content types
(`universal_processor.py:270-278`). -/
def ocrFor (contentType : String) : Bool :=
  contentType == "application/pdf" || strStartsWith contentType "image/"

/-- Request timeout: 900 s when OCR is enabled, else 60 s
(`universal_processor.py:292`). -/
def tikaRequestTimeout (enableOcr : Bool) : Nat :=
  if enableOcr then 900 else 60

/-- The placeholder substituted when the extracted text is empty or under
10 characters (`universal_processor.py:332-336`). -/
def noTextPlaceholder (enableOcr : Bool) (filename : String) : String :=
  if enableOcr then
    "[No extractable text found. OCR was attempted but may require better image quality or different language support.]"
  else
    "[No extractable text content found in " ++ pathSuffix filename ++ " file.]"

/-- Extraction result dictionary returned on success
(`universal_processor.py:342-350`). -/
structure TikaSuccess where
  text : String
  metadata : List (String × String)
  status : String
  filename : String
  contentType : String
  ocrUsed : Bool
deriving DecidableEq

/-- The `_update_status` + `time.sleep` pair executed before a retry
(`universal_processor.py:354-359` and the analogous except blocks). -/
def retryEvents (f : String) (attempt maxR delay : Nat) (kind : String) :
    List Event :=
  [Event.statusUpd true (some f) (30 + attempt * 5)
    ("retrying after " ++ kind ++ " (attempt " ++ toString (attempt + 1) ++
      "/" ++ toString maxR ++ ")") none,
   Event.sleep delay]

/-- The terminal `_update_status` reporting the error after the final
failed attempt (`universal_processor.py:362-363` and analogous). -/
def finalFailEvent (msg : String) (maxR : Nat) : Event :=
  Event.statusUpd false none 0 "idle"
    (some (msg ++ " after " ++ toString maxR ++ " attempts"))

/-- The events of the successful 200 branch up to returning the result
(`universal_processor.py:306-350`). -/
def tikaSuccessEvents (f : String) : List Event :=
  [Event.statusUpd true (some f) 70 "extracting metadata" none,
   Event.tikaMetaReq,
   Event.statusUpd true (some f) 90 "finalizing" none]

/-- The status update and extraction request opening every loop
iteration (`universal_processor.py:296-304`). -/
def tikaHdr (f : String) (maxR attempt : Nat) : List Event :=
  [Event.statusUpd true (some f) 30
    ("processing (attempt " ++ toString (attempt + 1) ++ "/" ++
      toString maxR ++ ")") none,
   Event.tikaPut attempt]

/-- The failure handling duplicated across the non-200 branch and the
three `except` blocks of `_process_with_tika` (the source repeats this
logic textually four times, with different messages): when
`attempt < max_retries - 1` (i.e. `remaining > 0` further iterations
follow), emit the retry status update and the `retry_delay` sleep and
continue with the remaining iterations `rec`; on the final attempt report
the terminal error to the status file and return `None`. -/
def tikaFailStep (env : ProcEnv) (f msg kind : String)
    (attempt remaining : Nat) (rec : List Event × Option TikaSuccess) :
    List Event × Option TikaSuccess :=
  if remaining = 0 then
    (tikaHdr f env.maxRetries attempt ++ [finalFailEvent msg env.maxRetries],
     none)
  else
    ((tikaHdr f env.maxRetries attempt ++
        retryEvents f attempt env.maxRetries env.retryDelay kind) ++ rec.1,
     rec.2)

/-- The retry loop `for attempt in range(self.max_retries)`
(`universal_processor.py:293-408`), as a recursion on the number of
remaining iterations (`remaining = max_retries - attempt`; the loop
falling through returns `None`, line 408). -/
def tikaLoop (env : ProcEnv) (f ct : String) (enableOcr : Bool) :
    Nat → Nat → List Event × Option TikaSuccess
  | 0, _ => ([], none)
  | remaining + 1, attempt =>
    match env.resp attempt with
    | TikaResp.httpResp code body =>
      if code = 200 then
        (tikaHdr f env.maxRetries attempt ++ tikaSuccessEvents f,
         some { text :=
                  let t := pyStrip body
                  if t = "" ∨ strLen t < 10 then noTextPlaceholder enableOcr f
                  else t,
                metadata := env.meta.getD [],
                status := "success", filename := f, contentType := ct,
                ocrUsed := enableOcr })
      else
        tikaFailStep env f ("Tika returned status " ++ toString code) "error"
          attempt remaining (tikaLoop env f ct enableOcr remaining (attempt + 1))
    | TikaResp.timeout =>
      tikaFailStep env f
        ("Tika timeout after " ++ toString (tikaRequestTimeout enableOcr) ++ "s")
        "timeout" attempt remaining
        (tikaLoop env f ct enableOcr remaining (attempt + 1))
    | TikaResp.connError msg =>
      tikaFailStep env f ("Connection error: " ++ msg) "connection error"
        attempt remaining (tikaLoop env f ct enableOcr remaining (attempt + 1))
    | TikaResp.otherExn msg =>
      tikaFailStep env f ("Unexpected error: " ++ msg) "error"
        attempt remaining (tikaLoop env f ct enableOcr remaining (attempt + 1))

/-- `_process_with_tika(file_content, filename, content_type=None)`:
resolve the content type from the filename when not supplied
(`universal_processor.py:261-263`), decide OCR, emit the initial status
update (line 268), and run the retry loop. -/
def processWithTika (env : ProcEnv) (filename : String)
    (contentType : Option String) : List Event × Option TikaSuccess :=
  let ct := contentType.getD
    ((mimetypesGuessType filename).getD "application/octet-stream")
  let enableOcr := ocrFor ct
  let r := tikaLoop env filename ct enableOcr env.maxRetries 0
  (Event.statusUpd true (some filename) 10 "processing" none :: r.1, r.2)

/-- A response that the source treats as a failed attempt: a non-200
status, a timeout, a connection error, or any other exception. -/
def isFailureResp : TikaResp → Bool
  | TikaResp.httpResp code _ => code != 200
  | TikaResp.timeout => true
  | TikaResp.connError _ => true
  | TikaResp.otherExn _ => true

/-- Number of extraction attempts (`PUT /tika` requests) in a trace. -/
def tikaPuts (evs : List Event) : Nat :=
  (evs.filterMap (fun e => match e with
    | Event.tikaPut n => some n
    | _ => none)).length

/-- The sleep durations in a trace, in order. -/
def sleepsOf (evs : List Event) : List Nat :=
  evs.filterMap (fun e => match e with
    | Event.sleep n => some n
    | _ => none)

/-! ### TextExtractor (`_process_text_file`, `universal_processor.py:417-443`) -/

/-- Unified view of an extraction result as consumed by
`process_file_from_minio` (`result['text']`, `result['status']`,
`result['processing_method']`). -/
structure ExtractResult where
  text : String
  status : String
  method : String
deriving DecidableEq

/-- `_process_text_file`: UTF-8 decode with Latin-1 fallback (the further
`errors='replace'` fallback is unreachable because Latin-1 decoding of
arbitrary bytes never raises), then `strip()`.  The body cannot raise, so
the result is always a success dictionary. -/
def processTextFile (content : PyBytes) : Option ExtractResult :=
  some { text := pyStrip (content.utf8.getD content.latin1),
         status := "success", method := "text" }

/-! ### ArchiveExtractor (`_process_archive`, `universal_processor.py:445-522`) -/

/-- The text-like entry extensions checked inside archives
(`universal_processor.py:466, 488`). -/
def textLikeExts : List String :=
  [".txt", ".md", ".csv", ".json", ".xml"]

/-- The zip entry walk (`universal_processor.py:457-474`): skip directory
names ending in `/`; a raised read is logged and skipped; readable
entries are recorded as `(name, size)`; entries with a text-like name
whose bytes decode as UTF-8 contribute a labeled section to the text
aggregate. -/
def zipWalk (entries : List ZipEntry) : List (String × Nat) × List String :=
  entries.foldl
    (fun acc e =>
      if strEndsWith e.name "/" then acc
      else
        match e.read with
        | none => acc
        | some d =>
          (acc.1 ++ [(e.name, d.size)],
           if textLikeExts.any (fun ext => strEndsWith (pyLower e.name) ext) then
             match d.utf8 with
             | some t => acc.2 ++ ["=== " ++ e.name ++ " ===\n" ++ t ++ "\n"]
             | none => acc.2
           else acc.2))
    ([], [])

/-- The tar member walk (`universal_processor.py:479-496`): only regular
files are processed; otherwise identical bookkeeping to the zip walk. -/
def tarWalk (entries : List TarEntry) : List (String × Nat) × List String :=
  entries.foldl
    (fun acc e =>
      if e.isFile then
        match e.read with
        | none => acc
        | some d =>
          (acc.1 ++ [(e.name, d.size)],
           if textLikeExts.any (fun ext => strEndsWith (pyLower e.name) ext) then
             match d.utf8 with
             | some t => acc.2 ++ ["=== " ++ e.name ++ " ===\n" ++ t ++ "\n"]
             | none => acc.2
           else acc.2)
      else acc)
    ([], [])

/-- The summary text assembled at `universal_processor.py:498-507`:
header, entry listing capped at 20 lines with an overflow line, then the
aggregated text sections when any exist. -/
def archiveText (filename : String) (files : List (String × Nat))
    (texts : List String) : String :=
  let header := "Archive: " ++ filename ++ "\n" ++
    "Extracted " ++ toString files.length ++ " files:\n"
  let listing := joinSep "" ((files.take 20).map
    (fun f => "  - " ++ f.1 ++ " (" ++ toString f.2 ++ " bytes)\n"))
  let overflow :=
    if files.length > 20 then
      "  ... and " ++ toString (files.length - 20) ++ " more files\n"
    else ""
  let textSec :=
    if texts ≠ [] then
      "\n=== Extracted Text Content ===\n" ++ joinSep "\n" texts
    else ""
  header ++ listing ++ overflow ++ textSec

/-- Archive extraction result (`universal_processor.py:509-519`); the
metadata keeps the entry count and the listing capped at 50 entries. -/
structure ArchiveResult where
  text : String
  archiveType : String
  filesCount : Nat
  extractedFiles : List (String × Nat)
  status : String
  filename : String
deriving DecidableEq

/-- `_process_archive`: dispatch on `Path(filename.lower()).suffix`
(`.zip` / one of `.tar`, `.tar.gz`, `.tgz` — note that the suffix of an
actual `x.tar.gz` name is `.gz`, which matches neither branch, so such a
file yields an empty walk); an unreadable container (the archive open
raising) is caught by the outer handler and returns `None`
(`universal_processor.py:520-522`); any other input produces a success
summary. -/
def processArchive (filename : String) (content : PyBytes) :
    Option ArchiveResult :=
  let suffix := pathSuffix (pyLower filename)
  let finish : List (String × Nat) × List String → ArchiveResult :=
    fun w =>
      { text := archiveText filename w.1 w.2,
        archiveType := suffix, filesCount := w.1.length,
        extractedFiles := w.1.take 50, status := "success",
        filename := filename }
  if suffix = ".zip" then
    match content.zipEntries with
    | none => none
    | some entries => some (finish (zipWalk entries))
  else if suffix = ".tar" ∨ suffix = ".tar.gz" ∨ suffix = ".tgz" then
    match content.tarEntries with
    | none => none
    | some entries => some (finish (tarWalk entries))
  else
    some (finish ([], []))

/-! ### `process_file` dispatch (`universal_processor.py:524-540`) -/

/-- `process_file(file_content, filename)`: classify, then dispatch to
the matching extractor; `skip` returns `None`. -/
def processFile (env : ProcEnv) (content : PyBytes) (filename : String) :
    List Event × Option ExtractResult :=
  match (getFileType filename).1 with
  | "skip" => ([], none)
  | "text" => ([], processTextFile content)
  | "archive" =>
    ([], (processArchive filename content).map
      (fun r => { text := r.text, status := r.status, method := "archive" }))
  | "tika" =>
    let r := processWithTika env filename none
    (r.1, r.2.map
      (fun t => { text := t.text, status := t.status, method := "tika" }))
  | _ => ([], none)

/-! ### OutputWriter and the pipeline entry point
(`store_processed_content` / `process_file_from_minio`,
`universal_processor.py:542-688`) -/

/-- `store_processed_content`: derive the output key and issue the
`put_object`; metadata assembly (percent-encoding, truncation) is not
observed by any claim and is elided.  Returns whether the upload
succeeded together with the trace of the call. -/
def storeProcessedContent (env : ProcEnv) (originalKey : String) :
    Bool × List Event :=
  (env.putOk, [Event.putReq env.processedBucket (outputKey originalKey)])

/-- `process_file_from_minio(object_key)`: HEAD the derived output key
first and report success immediately when it exists; a `ClientError` or
any other exception from the HEAD proceeds to processing.  Then download,
extract, and store, updating the status file at each phase. -/
def processFileFromMinio (env : ProcEnv) (objectKey : String) :
    Bool × List Event :=
  let outKey := outputKey objectKey
  let headEv := Event.headReq env.processedBucket outKey
  match env.head env.processedBucket outKey with
  | HeadRes.found => (true, [headEv])
  | _ =>
    let filename := pyName objectKey
    let ev1 := [headEv,
      Event.statusUpd true (some filename) 5 "downloading from MinIO" none,
      Event.getReq env.uploadsBucket objectKey]
    match env.get env.uploadsBucket objectKey with
    | Except.error msg =>
      (false, ev1 ++ [Event.statusUpd false none 0 "idle"
        (some ("Failed to download file from MinIO: " ++ msg))])
    | Except.ok content =>
      let pr := processFile env content filename
      match pr.2 with
      | none =>
        (false, ev1 ++ pr.1 ++ [Event.statusUpd false none 0 "idle"
          (some ("Processing failed: " ++ filename))])
      | some r =>
        if r.status = "success" then
          let st := storeProcessedContent env objectKey
          let ev2 := ev1 ++ pr.1 ++
            [Event.statusUpd true (some filename) 95
              "storing processed content" none] ++ st.2
          if st.1 then
            (true, ev2 ++ [Event.statusUpd false none 100 "completed" none])
          else
            (false, ev2 ++ [Event.statusUpd false none 0 "idle"
              (some ("Failed to store: " ++ filename))])
        else
          (false, ev1 ++ pr.1 ++ [Event.statusUpd false none 0 "idle"
            (some ("Processing failed: " ++ filename))])

/-! ### BucketWatcher (`universal_auto_processor.py:21-129`) -/

/-- One page of an S3 `ListObjectsV2` response. -/
structure ListPage where
  contents : List String
  isTruncated : Bool
  nextToken : Option String
deriving DecidableEq

/-- `f"{bucket}:{object_key}"` tracking id (`universal_auto_processor.py:58`). -/
def fileIdOf (bucket key : String) : String :=
  bucket ++ ":" ++ key

/-- The per-object filter of `check_for_new_files`
(`universal_auto_processor.py:60-75`): drop ids already processed, `.txt`
outputs, lock/temp files, and objects the classifier marks `skip`. -/
def candidateKeep (processed : List String) (bucket key : String) : Bool :=
  !(processed.contains (fileIdOf bucket key)) &&
  !(strEndsWith (pyLower key) ".txt") &&
  !([".lock", ".tmp", ".swp", ".processed"].any
      (fun ext => strEndsWith (pyLower key) ext)) &&
  (getFileType key).1 != "skip"

/-- `check_for_new_files` (`universal_auto_processor.py:45-81`): for each
watched bucket, issue a single `list_objects_v2(Bucket=bucket)` call —
with no continuation token — and filter its `Contents`; a listing
exception skips that bucket and continues. -/
def checkForNewFiles (listObjects : String → Option String → Except String ListPage)
    (watchBuckets : List String) (processed : List String) :
    List (String × String) :=
  watchBuckets.foldl
    (fun acc bucket =>
      match listObjects bucket none with
      | Except.error _ => acc
      | Except.ok page =>
        acc ++ (page.contents.filter (candidateKeep processed bucket)).map
          (fun key => (bucket, key)))
    []

/-- The watcher's mutable state: `processed_files` (a set) and
`failed_files` (a dict from file id to retry count). -/
structure WatcherState where
  processedFiles : List String
  failedFiles : List (String × Nat)
deriving DecidableEq

/-- Dict lookup on `failed_files`. -/
def lookupCount : List (String × Nat) → String → Option Nat
  | [], _ => none
  | (k, v) :: rest, fid => if k == fid then some v else lookupCount rest fid

/-- Dict update `failed_files[fid] = c`. -/
def setCount : List (String × Nat) → String → Nat → List (String × Nat)
  | [], fid, c => [(fid, c)]
  | (k, v) :: rest, fid, c =>
    if k == fid then (k, c) :: rest else (k, v) :: setCount rest fid c

/-- Dict removal `failed_files.pop(fid, None)`. -/
def eraseCount (l : List (String × Nat)) (fid : String) : List (String × Nat) :=
  l.filter (fun p => p.1 != fid)

/-- Set insertion `processed_files.add(fid)`. -/
def addProcessed (l : List String) (fid : String) : List String :=
  if l.contains fid then l else l ++ [fid]

/-- The per-file bookkeeping of `process_new_files`
(`universal_auto_processor.py:107-123`): on success add to the processed
set and drop any failure count; on failure increment the count (creating
it at 0 first), and when it reaches 3 force-add to the processed set and
drop the count.  The `success` flag is the boolean returned by
`process_file_from_minio`, which catches every exception internally, so
the watcher's own exception handler (lines 125-129) is unreachable for
processing failures. -/
def processOne (st : WatcherState) (fid : String) (success : Bool) :
    WatcherState :=
  if success then
    { processedFiles := addProcessed st.processedFiles fid,
      failedFiles := eraseCount st.failedFiles fid }
  else
    let c := (lookupCount st.failedFiles fid).getD 0 + 1
    if 3 ≤ c then
      { processedFiles := addProcessed st.processedFiles fid,
        failedFiles := eraseCount st.failedFiles fid }
    else
      { processedFiles := st.processedFiles,
        failedFiles := setCount st.failedFiles fid c }

/-- `process_new_files` (`universal_auto_processor.py:83-129`): list the
candidates once, then process each in order, recording the attempted file
ids.  `outcome fid` is the boolean result of `process_file_from_minio`
for that candidate. -/
def processNewFiles (listObjects : String → Option String → Except String ListPage)
    (watchBuckets : List String) (outcome : String → Bool)
    (st : WatcherState) : WatcherState × List String :=
  (checkForNewFiles listObjects watchBuckets st.processedFiles).foldl
    (fun acc c =>
      let fid := fileIdOf c.1 c.2
      (processOne acc.1 fid (outcome fid), acc.2 ++ [fid]))
    (st, [])

/-- `n` polling cycles of the watcher main loop
(`universal_auto_processor.py:175-187`, restricted to the
`process_new_files` call), returning the final state and the total number
of processing attempts made. -/
def runCycles (listObjects : String → Option String → Except String ListPage)
    (watchBuckets : List String) (outcome : String → Bool) :
    Nat → WatcherState × Nat
  | 0 => ({ processedFiles := [], failedFiles := [] }, 0)
  | n + 1 =>
    let prev := runCycles listObjects watchBuckets outcome n
    let step := processNewFiles listObjects watchBuckets outcome prev.1
    (step.1, prev.2 + step.2.length)

/-! ### Concrete environments used by witnesses and counterexamples -/

/-- Environment whose HEAD probe always finds the output object. -/
def envW : ProcEnv :=
  { maxRetries := 3, retryDelay := 5,
    uploadsBucket := "tika-pipe", processedBucket := "tika-pipe",
    head := fun _ _ => HeadRes.found,
    get := fun _ _ => Except.error "unreachable",
    resp := fun _ => TikaResp.timeout,
    meta := none, putOk := true }

/-- Environment in which the extraction service times out on every
attempt (HEAD reports the output as absent). -/
def envFail : ProcEnv :=
  { envW with head := fun _ _ => HeadRes.clientErr }

/-- Environment in which the extraction service answers 200 with a
whitespace-only body. -/
def envEmpty : ProcEnv :=
  { envFail with resp := fun _ => TikaResp.httpResp 200 "  " }

/-- Environment in which exactly the processed object `a.txt` exists. -/
def envDone : ProcEnv :=
  { envW with
    head := fun _ key => if key == "a.txt" then HeadRes.found
                         else HeadRes.clientErr }

/-! ### Claim C1 -/

/-- Claim C1: if an object already exists at the derived output key in
the processed bucket (the HEAD check finds it), `process_file_from_minio`
returns `true` immediately and its trace is exactly the one HEAD request:
no download, no extractor call, no status write, no output write. -/
theorem C1_idempotent_noop (env : ProcEnv) (objectKey : String)
    (h : env.head env.processedBucket (outputKey objectKey) = HeadRes.found) :
    processFileFromMinio env objectKey =
      (true, [Event.headReq env.processedBucket (outputKey objectKey)]) := by
  simp only [processFileFromMinio]
  rw [h]

/-- Witness for C1: the concrete environment `envW` whose HEAD always
succeeds, on the concrete key `a.pdf`. -/
theorem C1_witness :
    processFileFromMinio envW "a.pdf" =
      (true, [Event.headReq envW.processedBucket (outputKey "a.pdf")]) :=
  C1_idempotent_noop envW "a.pdf" rfl

/-! ### Claim C2 -/

/-- Counterexample to claim C2: the derivation keeps everything up to the
last dot (`Path.stem` drops only the final suffix), so the whole
extension of `a.tar.gz` is not replaced and the output key is not
`a.txt`. -/
theorem C2_counterexample : outputKey "a.tar.gz" ≠ "a.txt" := by decide

/-- Claim C2 as amended: the output key keeps the parent path and
replaces only the final extension segment with `.txt`:
`docs/report.pdf` becomes `docs/report.txt`, `a.tar.gz` becomes
`a.tar.txt` (not `a.txt`), and extensionless `report` becomes
`report.txt`. -/
theorem C2_output_key_amended :
    outputKey "docs/report.pdf" = "docs/report.txt" ∧
    outputKey "a.tar.gz" = "a.tar.txt" ∧
    outputKey "report" = "report.txt" := by decide

/-! ### Claim C3 -/

/-- Counterexample to claim C3: `classify("x.txt")` is Skip, not
PlainText — `.txt` sits in `SKIP_EXTENSIONS`, which is checked before the
supported-extension table. -/
theorem C3_counterexample :
    getFileType "x.txt" = ("skip", none) ∧
    (getFileType "x.txt").1 ≠ "text" := by decide

/-- Claim C3 as amended: `x.pdf` classifies to the remote extractor,
`x.txt` to Skip (already-processed output, checked before the
plain-text table entry), `x.zip` to Archive, `x.lock` to Skip, unknown
`x.unknownext` falls back to the remote extractor (never Skip), and known
suffixes match longest-first (`x.tar.gz` matches `.tar.gz`, not `.gz`). -/
theorem C3_classification_amended :
    (getFileType "x.pdf").1 = "tika" ∧
    (getFileType "x.txt").1 = "skip" ∧
    (getFileType "x.zip").1 = "archive" ∧
    (getFileType "x.lock").1 = "skip" ∧
    (getFileType "x.unknownext").1 = "tika" ∧
    getFileType "x.tar.gz" = ("archive", some ".tar.gz") := by decide

/-! ### Claim C7 -/

/-- Claim C7 (code bug): the claim states that `_update_status` never
propagates a write failure — the evident intent of its try/except — but
the except clause at `universal_processor.py:223` names
`json.JSONEncodeError`, which does not exist in the `json` module, so on
any failing write (here evaluated at an `OSError` such as disk full and
at an `IOError` permission error) the call propagates `AttributeError`
to its caller instead of logging and returning normally.  Successful
writes do store the progress clamped into `[0, 100]` (here 150 is stored
as 100 and -5 as 0). -/
theorem C7_write_failure_propagates :
    updateStatus (fun _ => Except.error StatusWriteErr.osErr)
      false none 0 "idle" none =
      Except.error StatusUpdateExn.attributeError ∧
    updateStatus (fun _ => Except.error StatusWriteErr.ioErr)
      true (some "f.pdf") 30 "processing" none =
      Except.error StatusUpdateExn.attributeError ∧
    updateStatus (fun _ => Except.ok ()) true (some "f.pdf") 150
      "processing" none =
      Except.ok (some { processing := true, currentFile := some "f.pdf",
                        progress := 100, status := "processing",
                        error := none }) ∧
    updateStatus (fun _ => Except.ok ()) false none (-5) "idle" none =
      Except.ok (some { processing := false, currentFile := none,
                        progress := 0, status := "idle",
                        error := none }) :=
  ⟨rfl, rfl, rfl, rfl⟩

/-! ### Claim C8 -/

/-- The concrete zip of claim C8: a UTF-8 text entry `a.txt` containing
`hello` and a 3-byte binary entry `b.bin` that does not decode. -/
def c8zip : List ZipEntry :=
  [{ name := "a.txt", read := some { size := 5, utf8 := some "hello" } },
   { name := "b.bin", read := some { size := 3, utf8 := none } }]

def c8bytes : PyBytes :=
  { utf8 := none, latin1 := "", zipEntries := some c8zip, tarEntries := none }

/-- The same download with an unreadable (corrupt) zip container. -/
def c8bytesBad : PyBytes :=
  { c8bytes with zipEntries := none }

/-- Claim C8: on the zip containing `a.txt` ("hello") and binary `b.bin`,
`_process_archive` succeeds with text that contains `hello` under a
section header naming `a.txt`, a summary stating 2 extracted files, and
`b.bin` listed with its name and size; the text aggregate consists of the
`a.txt` section only (`b.bin` contributes nothing); an unreadable
individual entry never fails the call (any entry list yields a result),
while an unreadable container returns `None`. -/
theorem C8_archive_aggregation :
    (∃ r, processArchive "docs.zip" c8bytes = some r ∧
      r.status = "success" ∧
      (∃ pre post, r.text = pre ++ "=== a.txt ===\nhello\n" ++ post) ∧
      (∃ pre post, r.text = pre ++ "Extracted 2 files" ++ post) ∧
      (∃ pre post, r.text = pre ++ "  - b.bin (3 bytes)\n" ++ post) ∧
      r.extractedFiles = [("a.txt", 5), ("b.bin", 3)]) ∧
    (zipWalk c8zip).2 = ["=== a.txt ===\nhello\n"] ∧
    (∀ entries : List ZipEntry,
      (processArchive "docs.zip"
        { utf8 := none, latin1 := "", zipEntries := some entries,
          tarEntries := none }).isSome = true) ∧
    processArchive "docs.zip" c8bytesBad = none := by
  refine ⟨?_, by decide, ?_, by decide⟩
  · refine ⟨_, rfl, by decide, ?_, ?_, ?_, by decide⟩
    · exact ⟨"Archive: docs.zip\nExtracted 2 files:\n  - a.txt (5 bytes)\n  - b.bin (3 bytes)\n\n=== Extracted Text Content ===\n",
        "", by decide⟩
    · exact ⟨"Archive: docs.zip\n", ":\n  - a.txt (5 bytes)\n  - b.bin (3 bytes)\n\n=== Extracted Text Content ===\n=== a.txt ===\nhello\n",
        by decide⟩
    · exact ⟨"Archive: docs.zip\nExtracted 2 files:\n  - a.txt (5 bytes)\n",
        "\n=== Extracted Text Content ===\n=== a.txt ===\nhello\n", by decide⟩
  · intro entries
    simp only [processArchive]
    rw [if_pos (by decide : pathSuffix (pyLower "docs.zip") = ".zip")]
    rfl

/-! ### Claim C9 -/

/-- A listing oracle for bucket `b` with two pages: the first page is
truncated with a continuation token leading to a second page that
contains `two.pdf`. -/
def twoPage : String → Option String → Except String ListPage :=
  fun bucket tok =>
    if bucket == "b" then
      match tok with
      | none => Except.ok { contents := ["one.pdf"], isTruncated := true,
                            nextToken := some "t" }
      | some _ => Except.ok { contents := ["two.pdf"], isTruncated := false,
                              nextToken := none }
    else Except.ok { contents := [], isTruncated := false, nextToken := none }

/-- Counterexample to claim C9: with a truncated first page,
`check_for_new_files` returns only the first page's candidate; the object
`two.pdf`, reachable through the continuation token, is never considered
because the watcher issues a single unpaginated `ListObjectsV2` call. -/
theorem C9_counterexample :
    twoPage "b" none =
      Except.ok { contents := ["one.pdf"], isTruncated := true,
                  nextToken := some "t" } ∧
    twoPage "b" (some "t") =
      Except.ok { contents := ["two.pdf"], isTruncated := false,
                  nextToken := none } ∧
    checkForNewFiles twoPage ["b"] [] = [("b", "one.pdf")] ∧
    ("b", "two.pdf") ∉ checkForNewFiles twoPage ["b"] [] :=
  ⟨rfl, rfl, by decide, by decide⟩

/-- A listing oracle with two configured buckets, each with a truncated
first page. -/
def twoBuckets : String → Option String → Except String ListPage :=
  fun bucket tok =>
    match bucket, tok with
    | "b1", none => Except.ok { contents := ["one.pdf"], isTruncated := true,
                                nextToken := some "t1" }
    | "b2", none => Except.ok { contents := ["three.pdf"],
                                isTruncated := true, nextToken := some "t2" }
    | _, _ => Except.ok { contents := ["later.pdf"], isTruncated := false,
                          nextToken := none }

/-- Claim C9 as amended: the watcher enumerates every configured bucket,
but issues a single `ListObjectsV2` call per bucket with no
continuation-token paging, so only objects on the first page of each
bucket's listing are considered as candidates. -/
theorem C9_first_page_only :
    checkForNewFiles twoBuckets ["b1", "b2"] [] =
      [("b1", "one.pdf"), ("b2", "three.pdf")] ∧
    ("b1", "later.pdf") ∉ checkForNewFiles twoBuckets ["b1", "b2"] [] ∧
    ("b2", "later.pdf") ∉ checkForNewFiles twoBuckets ["b1", "b2"] [] := by
  decide

/-! ### Claim C10 -/

/-- Claim C10: the output-key derivation is not injective — `a.pdf` and
`a.md` both derive `a.txt` — so once `a.txt` exists (here: `envDone`,
after the first file was processed), `process_file_from_minio` on the
second file returns `true` through the idempotency check with a trace of
exactly the HEAD probe: the second file's content is never downloaded,
extracted, or stored. -/
theorem C10_output_key_collision :
    outputKey "a.pdf" = "a.txt" ∧
    outputKey "a.md" = "a.txt" ∧
    ("a.pdf" : String) ≠ "a.md" ∧
    processFileFromMinio envDone "a.md" =
      (true, [Event.headReq envDone.processedBucket "a.txt"]) := by decide

/-! ### Claim C4 -/

theorem tikaPuts_append (a b : List Event) :
    tikaPuts (a ++ b) = tikaPuts a + tikaPuts b := by
  simp [tikaPuts, List.filterMap_append]

theorem sleepsOf_append (a b : List Event) :
    sleepsOf (a ++ b) = sleepsOf a ++ sleepsOf b := by
  simp [sleepsOf, List.filterMap_append]

/-- Behaviour of one failure step: given that the remaining iterations
(when any) also fail with the stated trace shape, the step produces one
more attempt, one more sleep when it retries, no result, and a trace
ending in the terminal error status update. -/
theorem tikaFailStep_run (env : ProcEnv) (f msg kind : String)
    (attempt r : Nat) (rec : List Event × Option TikaSuccess)
    (ih : 1 ≤ r →
      rec.2 = none ∧ tikaPuts rec.1 = r ∧
      sleepsOf rec.1 = List.replicate (r - 1) env.retryDelay ∧
      ∃ evs m, rec.1 =
        evs ++ [Event.statusUpd false none 0 "idle" (some m)]) :
    (tikaFailStep env f msg kind attempt r rec).2 = none ∧
    tikaPuts (tikaFailStep env f msg kind attempt r rec).1 = r + 1 ∧
    sleepsOf (tikaFailStep env f msg kind attempt r rec).1 =
      List.replicate r env.retryDelay ∧
    ∃ evs m, (tikaFailStep env f msg kind attempt r rec).1 =
      evs ++ [Event.statusUpd false none 0 "idle" (some m)] := by
  rcases Nat.eq_zero_or_pos r with hr | hr
  · subst hr
    simp only [tikaFailStep, if_pos rfl]
    refine ⟨rfl, ?_, ?_, ?_⟩
    · simp [tikaPuts, tikaHdr, finalFailEvent]
    · simp [sleepsOf, tikaHdr, finalFailEvent]
    · exact ⟨tikaHdr f env.maxRetries attempt,
        msg ++ " after " ++ toString env.maxRetries ++ " attempts",
        by simp [finalFailEvent]⟩
  · obtain ⟨h1, h2, h3, evs, m, h4⟩ := ih hr
    have hr0 : ¬ r = 0 := by omega
    simp only [tikaFailStep, if_neg hr0]
    refine ⟨h1, ?_, ?_, ?_⟩
    · rw [tikaPuts_append, h2]
      simp [tikaPuts, tikaHdr, retryEvents, tikaPuts_append]
      omega
    · have hrep : r = (r - 1) + 1 := by omega
      have hrep2 : List.replicate r env.retryDelay =
          env.retryDelay :: List.replicate (r - 1) env.retryDelay := by
        conv_lhs => rw [hrep]
        rw [List.replicate_succ]
      rw [sleepsOf_append, sleepsOf_append, h3, hrep2]
      simp [sleepsOf, tikaHdr, retryEvents]
    · refine ⟨(tikaHdr f env.maxRetries attempt ++
        retryEvents f attempt env.maxRetries env.retryDelay kind) ++ evs, m, ?_⟩
      rw [h4]
      simp [List.append_assoc]

/-- An always-failing extraction service drives the retry loop through
all `r` remaining iterations: no result, `r` attempts, `r - 1` sleeps of
the configured delay, and a trace ending in the terminal error status. -/
theorem tikaLoop_fail (env : ProcEnv) (f ct : String) (eo : Bool)
    (hfail : ∀ i, isFailureResp (env.resp i) = true) :
    ∀ r attempt, 1 ≤ r →
      (tikaLoop env f ct eo r attempt).2 = none ∧
      tikaPuts (tikaLoop env f ct eo r attempt).1 = r ∧
      sleepsOf (tikaLoop env f ct eo r attempt).1 =
        List.replicate (r - 1) env.retryDelay ∧
      ∃ evs m, (tikaLoop env f ct eo r attempt).1 =
        evs ++ [Event.statusUpd false none 0 "idle" (some m)] := by
  intro r
  induction r with
  | zero => intro attempt h; omega
  | succ r ih =>
    intro attempt _
    have hf := hfail attempt
    cases hresp : env.resp attempt with
    | httpResp code body =>
      have hcode : ¬ code = 200 := by
        rw [hresp] at hf
        simpa [isFailureResp] using hf
      have hstep : tikaLoop env f ct eo (r + 1) attempt =
          tikaFailStep env f ("Tika returned status " ++ toString code)
            "error" attempt r (tikaLoop env f ct eo r (attempt + 1)) := by
        simp [tikaLoop, hresp, hcode]
      rw [hstep]
      exact tikaFailStep_run env f _ _ attempt r _ (fun h => ih (attempt + 1) h)
    | timeout =>
      have hstep : tikaLoop env f ct eo (r + 1) attempt =
          tikaFailStep env f
            ("Tika timeout after " ++ toString (tikaRequestTimeout eo) ++ "s")
            "timeout" attempt r (tikaLoop env f ct eo r (attempt + 1)) := by
        simp [tikaLoop, hresp]
      rw [hstep]
      exact tikaFailStep_run env f _ _ attempt r _ (fun h => ih (attempt + 1) h)
    | connError m =>
      have hstep : tikaLoop env f ct eo (r + 1) attempt =
          tikaFailStep env f ("Connection error: " ++ m) "connection error"
            attempt r (tikaLoop env f ct eo r (attempt + 1)) := by
        simp [tikaLoop, hresp]
      rw [hstep]
      exact tikaFailStep_run env f _ _ attempt r _ (fun h => ih (attempt + 1) h)
    | otherExn m =>
      have hstep : tikaLoop env f ct eo (r + 1) attempt =
          tikaFailStep env f ("Unexpected error: " ++ m) "error"
            attempt r (tikaLoop env f ct eo r (attempt + 1)) := by
        simp [tikaLoop, hresp]
      rw [hstep]
      exact tikaFailStep_run env f _ _ attempt r _ (fun h => ih (attempt + 1) h)

/-- Claim C4: when every extraction attempt fails (non-2xx response,
timeout, or connection error), `_process_with_tika` makes exactly
`max_retries` attempts, sleeps the configured `retry_delay` between
consecutive attempts (`max_retries - 1` sleeps), and returns `None` with
the terminal error reported through the final status-file update. -/
theorem C4_retry_exhaustion (env : ProcEnv) (f : String) (ct : Option String)
    (hmax : 1 ≤ env.maxRetries)
    (hfail : ∀ i, isFailureResp (env.resp i) = true) :
    (processWithTika env f ct).2 = none ∧
    tikaPuts (processWithTika env f ct).1 = env.maxRetries ∧
    sleepsOf (processWithTika env f ct).1 =
      List.replicate (env.maxRetries - 1) env.retryDelay ∧
    ∃ evs msg, (processWithTika env f ct).1 =
      Event.statusUpd true (some f) 10 "processing" none ::
        (evs ++ [Event.statusUpd false none 0 "idle" (some msg)]) := by
  obtain ⟨h1, h2, h3, evs, msg, h4⟩ :=
    tikaLoop_fail env f
      (ct.getD ((mimetypesGuessType f).getD "application/octet-stream"))
      (ocrFor (ct.getD ((mimetypesGuessType f).getD "application/octet-stream")))
      hfail env.maxRetries 0 hmax
  refine ⟨?_, ?_, ?_, evs, msg, ?_⟩
  · simpa [processWithTika] using h1
  · simp only [processWithTika]
    rw [show ∀ (e : Event) (l : List Event), tikaPuts (e :: l) =
      tikaPuts ([e] ++ l) from fun _ _ => rfl, tikaPuts_append]
    simpa [tikaPuts] using h2
  · simp only [processWithTika]
    rw [show ∀ (e : Event) (l : List Event), sleepsOf (e :: l) =
      sleepsOf ([e] ++ l) from fun _ _ => rfl, sleepsOf_append]
    simpa [sleepsOf] using h3
  · simp only [processWithTika]
    rw [h4]

/-- Witness for C4: the concrete environment `envFail`, whose extraction
service times out on every attempt, with `max_retries = 3` and
`retry_delay = 5`. -/
theorem C4_witness :
    (processWithTika envFail "f.pdf" none).2 = none ∧
    tikaPuts (processWithTika envFail "f.pdf" none).1 = envFail.maxRetries ∧
    sleepsOf (processWithTika envFail "f.pdf" none).1 =
      List.replicate (envFail.maxRetries - 1) envFail.retryDelay ∧
    ∃ evs msg, (processWithTika envFail "f.pdf" none).1 =
      Event.statusUpd true (some "f.pdf") 10 "processing" none ::
        (evs ++ [Event.statusUpd false none 0 "idle" (some msg)]) :=
  C4_retry_exhaustion envFail "f.pdf" none (by decide) (fun i => rfl)

/-! ### Claim C6 -/

/-- Claim C6: when the extraction service answers the first attempt with
HTTP 200 and a body that strips to fewer than 10 characters,
`_process_with_tika` returns a success result (not a failure) whose text
is the fixed placeholder stating that no extractable text was found. -/
theorem C6_empty_body_placeholder (env : ProcEnv) (f : String)
    (ct : Option String) (body : String)
    (hmax : 1 ≤ env.maxRetries)
    (hresp : env.resp 0 = TikaResp.httpResp 200 body)
    (hshort : strLen (pyStrip body) < 10) :
    ∃ res, (processWithTika env f ct).2 = some res ∧
      res.status = "success" ∧
      res.text = noTextPlaceholder
        (ocrFor (ct.getD
          ((mimetypesGuessType f).getD "application/octet-stream"))) f := by
  obtain ⟨r, hr⟩ : ∃ r, env.maxRetries = r + 1 :=
    ⟨env.maxRetries - 1, by omega⟩
  simp only [processWithTika]
  rw [hr]
  simp only [tikaLoop, hresp]
  refine ⟨_, rfl, rfl, ?_⟩
  simp [hshort]

/-- Witness for C6: the concrete environment `envEmpty` answering 200
with a whitespace-only body, on the filename `x.bin` (no OCR content
type), yielding the non-OCR placeholder text. -/
theorem C6_witness :
    ∃ res, (processWithTika envEmpty "x.bin" none).2 = some res ∧
      res.status = "success" ∧
      res.text = noTextPlaceholder
        (ocrFor ((none : Option String).getD
          ((mimetypesGuessType "x.bin").getD "application/octet-stream")))
        "x.bin" :=
  C6_empty_body_placeholder envEmpty "x.bin" none "  " (by decide) rfl
    (by decide)

/-! ### Claim C5 -/

theorem lookupCount_setCount (l : List (String × Nat)) (fid : String)
    (c : Nat) : lookupCount (setCount l fid c) fid = some c := by
  induction l with
  | nil => simp [setCount, lookupCount]
  | cons p rest ih =>
    obtain ⟨k, v⟩ := p
    cases h : k == fid with
    | true => simp [setCount, lookupCount, h]
    | false => simp [setCount, lookupCount, h, ih]

theorem lookupCount_eraseCount (l : List (String × Nat)) (fid : String) :
    lookupCount (eraseCount l fid) fid = none := by
  induction l with
  | nil => simp [eraseCount, lookupCount]
  | cons p rest ih =>
    obtain ⟨k, v⟩ := p
    cases h : k == fid with
    | true =>
      simpa [eraseCount, List.filter_cons, bne, h, lookupCount] using ih
    | false =>
      simpa [eraseCount, List.filter_cons, bne, h, lookupCount] using ih

theorem mem_addProcessed (l : List String) (fid : String) :
    fid ∈ addProcessed l fid := by
  unfold addProcessed
  by_cases h : l.contains fid = true
  · rw [if_pos h]
    exact List.mem_of_elem_eq_true h
  · rw [if_neg h]
    exact List.mem_append_right l (List.mem_singleton.mpr rfl)

/-- The single watched bucket `b`, whose (single-page) listing always
shows the one candidate object `f.pdf`. -/
def watch1 : String → Option String → Except String ListPage :=
  fun bucket _ =>
    if bucket == "b" then
      Except.ok { contents := ["f.pdf"], isTruncated := false,
                  nextToken := none }
    else Except.ok { contents := [], isTruncated := false, nextToken := none }

/-- `n` polling cycles over `watch1` with a candidate whose processing
always fails. -/
def runCyclesFail (n : Nat) : WatcherState × Nat :=
  runCycles watch1 ["b"] (fun _ => false) n

/-- Claim C5: each failed attempt increases the candidate's failure count
by exactly one (created at 1 on the first failure); a successful attempt
clears the count; when the count reaches the cap of 3 the candidate moves
into the processed set and its count entry is dropped; consequently a
persistently failing candidate is attempted exactly 3 times across any
number of polling cycles and then never again in-process. -/
theorem C5_failure_cap :
    (∀ st fid k, lookupCount st.failedFiles fid = some k → k + 1 < 3 →
      lookupCount (processOne st fid false).failedFiles fid = some (k + 1)) ∧
    (∀ st fid, lookupCount st.failedFiles fid = none →
      lookupCount (processOne st fid false).failedFiles fid = some 1) ∧
    (∀ st fid k, lookupCount st.failedFiles fid = some k → 3 ≤ k + 1 →
      fid ∈ (processOne st fid false).processedFiles ∧
      lookupCount (processOne st fid false).failedFiles fid = none) ∧
    (∀ st fid, lookupCount (processOne st fid true).failedFiles fid = none ∧
      fid ∈ (processOne st fid true).processedFiles) ∧
    (∀ n, 3 ≤ n →
      runCyclesFail n =
        ({ processedFiles := ["b:f.pdf"], failedFiles := [] }, 3)) := by
  refine ⟨?_, ?_, ?_, ?_, ?_⟩
  · intro st fid k hk hlt
    have h3 : ¬ 3 ≤ k + 1 := by omega
    simp only [processOne, if_neg (by simp : ¬ False = true), hk,
      Option.getD_some]
    rw [if_neg h3]
    exact lookupCount_setCount st.failedFiles fid (k + 1)
  · intro st fid hk
    have h3 : ¬ 3 ≤ (0 : Nat) + 1 := by omega
    simp only [processOne, if_neg (by simp : ¬ False = true), hk,
      Option.getD_none]
    rw [if_neg h3]
    exact lookupCount_setCount st.failedFiles fid 1
  · intro st fid k hk h3
    simp only [processOne, if_neg (by simp : ¬ False = true), hk,
      Option.getD_some]
    rw [if_pos h3]
    exact ⟨mem_addProcessed st.processedFiles fid,
      lookupCount_eraseCount st.failedFiles fid⟩
  · intro st fid
    simp only [processOne, if_pos rfl]
    exact ⟨lookupCount_eraseCount st.failedFiles fid,
      mem_addProcessed st.processedFiles fid⟩
  · have base : runCyclesFail 3 =
        ({ processedFiles := ["b:f.pdf"], failedFiles := [] }, 3) := by decide
    have fix : processNewFiles watch1 ["b"] (fun _ => false)
        { processedFiles := ["b:f.pdf"], failedFiles := [] } =
        ({ processedFiles := ["b:f.pdf"], failedFiles := [] }, []) := by decide
    have step : ∀ m, runCyclesFail (3 + m) =
        ({ processedFiles := ["b:f.pdf"], failedFiles := [] }, 3) := by
      intro m
      induction m with
      | zero => exact base
      | succ m ih =>
        have hunf : runCyclesFail (3 + (m + 1)) =
            ((processNewFiles watch1 ["b"] (fun _ => false)
                (runCyclesFail (3 + m)).1).1,
             (runCyclesFail (3 + m)).2 +
               (processNewFiles watch1 ["b"] (fun _ => false)
                 (runCyclesFail (3 + m)).1).2.length) := rfl
        rw [hunf, ih, fix]
        rfl
    intro n hn
    obtain ⟨m, rfl⟩ : ∃ m, n = 3 + m := ⟨n - 3, by omega⟩
    exact step m

/-- Witness for C5 at concrete states and a concrete cycle count: a
second failure moves the count from 1 to 2; a first failure creates the
count at 1; a third failure (count 2) moves the candidate into the
processed set and drops the count; success clears the count; and after 5
cycles of the always-failing candidate exactly 3 attempts were made and
the candidate sits in the processed set with no failure entry. -/
theorem C5_witness :
    lookupCount (processOne
      { processedFiles := [], failedFiles := [("b:f.pdf", 1)] }
      "b:f.pdf" false).failedFiles "b:f.pdf" = some 2 ∧
    lookupCount (processOne
      { processedFiles := [], failedFiles := [] }
      "x" false).failedFiles "x" = some 1 ∧
    ("y" ∈ (processOne
      { processedFiles := [], failedFiles := [("y", 2)] }
      "y" false).processedFiles ∧
     lookupCount (processOne
      { processedFiles := [], failedFiles := [("y", 2)] }
      "y" false).failedFiles "y" = none) ∧
    lookupCount (processOne
      { processedFiles := ["z"], failedFiles := [("z", 1)] }
      "z" true).failedFiles "z" = none ∧
    runCyclesFail 5 =
      ({ processedFiles := ["b:f.pdf"], failedFiles := [] }, 3) :=
  ⟨C5_failure_cap.1 _ "b:f.pdf" 1 rfl (by decide),
   C5_failure_cap.2.1 _ "x" rfl,
   C5_failure_cap.2.2.1 _ "y" 2 rfl (by decide),
   (C5_failure_cap.2.2.2.1 _ "z").1,
   C5_failure_cap.2.2.2.2 5 (by decide)⟩

end TuVM
